import Mathlib

/-!
Verification of the easylogger library (src/easylogger.h), a minimal
hierarchical logging facility: named loggers in a parent/child tree, each
with its own minimum severity threshold, filtering, formatting and writing
text lines to an output destination.

The embedding is a shallow functional model.  Output streams are modelled
as an association table from stream ids to their recorded state (written
lines and flush count); the process-standard console stream `std::cout` is
stream id 0.  A log statement is modelled as a function from the stream
table to the new stream table together with a trace of observable events
(sink construction, line writes, flushes, `std::abort`, and null-pointer
dereference for undefined behaviour).

The repository ships only `easylogger.h`; the bodies of
`Logger::IsLevel`, `Logger::Log`, `Logger::WriteLog`, the `LogSink`
destructor and the `Format`/`Stream` setters live in `easylogger-impl.h`,
which is not part of the sources.  Those definitions are modelled from the
specification and are marked as such in their doc comments.  Everything
else (constructors, `Flush`, the `EASY_LOG` and assertion macros, the
`LogSink` stream operator) is translated directly from `easylogger.h`.
-/

namespace Easylogger

/-- Log levels, from src/easylogger.h lines 24-31: the `LogLevel` enum
`LEVEL_TRACE < LEVEL_DEBUG < LEVEL_INFO < LEVEL_WARNING < LEVEL_ERROR <
LEVEL_FATAL`, ordered by declaration sequence. -/
inductive LogLevel : Type where
  | LEVEL_TRACE
  | LEVEL_DEBUG
  | LEVEL_INFO
  | LEVEL_WARNING
  | LEVEL_ERROR
  | LEVEL_FATAL
deriving DecidableEq, Repr

/-- Numeric value of a level, matching the C++ enum values 0..5. -/
def LogLevel.toNat : LogLevel → Nat
  | .LEVEL_TRACE => 0
  | .LEVEL_DEBUG => 1
  | .LEVEL_INFO => 2
  | .LEVEL_WARNING => 3
  | .LEVEL_ERROR => 4
  | .LEVEL_FATAL => 5

/-- Severity-to-text mapping (spec section 6): each of the six levels maps
to a fixed display string. -/
def levelText : LogLevel → String
  | .LEVEL_TRACE => "TRACE"
  | .LEVEL_DEBUG => "DEBUG"
  | .LEVEL_INFO => "INFO"
  | .LEVEL_WARNING => "WARNING"
  | .LEVEL_ERROR => "ERROR"
  | .LEVEL_FATAL => "FATAL"

/-- Recorded state of one output stream: the lines written to it so far and
how many times it has been flushed. -/
structure StreamSt where
  lines : List String
  flushes : Nat
deriving DecidableEq, Repr

/-- The table of live output streams, keyed by stream id.  Stream id 0 is
the process-standard console stream (`std::cout`). -/
abbrev Streams := List (Nat × StreamSt)

/-- Look up a stream's state in the table (fresh streams are empty and
unflushed). -/
def streamsGet (st : Streams) (sid : Nat) : StreamSt :=
  match st with
  | [] => ⟨[], 0⟩
  | (k, v) :: t => if k = sid then v else streamsGet t sid

/-- Update a stream's state in the table. -/
def streamsSet (st : Streams) (sid : Nat) (v : StreamSt) : Streams :=
  match st with
  | [] => [(sid, v)]
  | (k, w) :: t => if k = sid then (k, v) :: t else (k, w) :: streamsSet t sid v

/-- Append one written line to a stream. -/
def writeLine (st : Streams) (sid : Nat) (line : String) : Streams :=
  streamsSet st sid ⟨(streamsGet st sid).lines ++ [line], (streamsGet st sid).flushes⟩

/-- Record a flush of a stream. -/
def flushStream (st : Streams) (sid : Nat) : Streams :=
  streamsSet st sid ⟨(streamsGet st sid).lines, (streamsGet st sid).flushes + 1⟩

/-- Observable events of a log statement: sink construction, a line written
to a stream, a stream flush, `std::abort`, and a null-pointer dereference
(undefined behaviour, modelled as a crash event after which execution
stops). -/
inductive Event : Type where
  | sinkConstructed
  | wroteLine (sid : Nat) (line : String)
  | flushed (sid : Nat)
  | aborted
  | nullDeref
deriving DecidableEq, Repr

/-- Logger system core class, from src/easylogger.h lines 113-224: a name,
a minimum level, a possibly-null destination stream pointer (`none` models
the null pointer `_stream = 0`), a format template string, and a
possibly-null parent pointer. -/
inductive Logger : Type where
  | mk (name : String) (level : LogLevel) (stream : Option Nat)
       (format : String) (parent : Option Logger)

/-- Name field accessor (`Logger::Name`). -/
def Logger.name : Logger → String
  | .mk n _ _ _ _ => n

/-- Level field accessor (`Logger::Level()` getter). -/
def Logger.level : Logger → LogLevel
  | .mk _ lv _ _ _ => lv

/-- Stream pointer field (`_stream`); `none` is the null pointer. -/
def Logger.stream : Logger → Option Nat
  | .mk _ _ s _ _ => s

/-- Format template field accessor (`Logger::Format()` getter). -/
def Logger.format : Logger → String
  | .mk _ _ _ f _ => f

/-- Parent pointer field (`_parent`); `none` is the null pointer. -/
def Logger.parent : Logger → Option Logger
  | .mk _ _ _ _ p => p

/-- Default format template from both constructors in src/easylogger.h
lines 118-128. -/
def defaultFormat : String := "[%F:%C %P] %N %L: %S"

/-- Stream id of the process-standard console stream `std::cout`. -/
def coutId : Nat := 0

/-- Root-logger constructor, src/easylogger.h lines 118-120: name as
given, level `LEVEL_INFO`, stream pointer `&std::cout`, default format,
null parent. -/
def Logger.mkRoot (name : String) : Logger :=
  .mk name .LEVEL_INFO (some coutId) defaultFormat none

/-- Child-logger constructor, src/easylogger.h lines 126-128: name as
given, level `LEVEL_INFO`, null stream pointer (`_stream(0)`), default
format, parent as given. -/
def Logger.mkChild (name : String) (parent : Logger) : Logger :=
  .mk name .LEVEL_INFO none defaultFormat (some parent)

/-- Level setter, src/easylogger.h line 145: `_level = level`. -/
def Logger.SetLevel (l : Logger) (level : LogLevel) : Logger :=
  match l with
  | .mk n _ s f p => .mk n level s f p

/-- Modelled from the spec: the body of the `Logger::Format(string)` setter
is in `easylogger-impl.h`, which is not in the sources.  Spec section 4.2:
"setter/getter; no validation of the template" — it stores the new format
template. -/
def Logger.SetFormat (l : Logger) (format : String) : Logger :=
  match l with
  | .mk n lv s _ p => .mk n lv s format p

/-- Modelled from the spec: the body of the `Logger::Stream(ostream&)`
setter is in `easylogger-impl.h`, which is not in the sources.  Spec
section 4.2: "setter/getter for the destination; no ownership transfer, no
lifetime checking" — it stores the new destination stream pointer (a C++
reference, hence never null). -/
def Logger.SetStream (l : Logger) (sid : Nat) : Logger :=
  match l with
  | .mk n lv _ f p => .mk n lv (some sid) f p

/-- Modelled from the spec: the body of `Logger::IsLevel` is in
`easylogger-impl.h`, which is not in the sources.  Spec section 4.2:
"IsLevel(level) → bool: accepts if `level ≥ this.level`. ... filtering is
evaluated once at the originating logger only"; ancestors are not
consulted. -/
def Logger.IsLevel (l : Logger) (level : LogLevel) : Bool :=
  l.level.toNat ≤ level.toNat

/-- The root ancestor of a logger: walk `parent` links until a logger with
a null parent pointer is reached. -/
def Logger.rootOf : Logger → Logger
  | .mk n lv s f none => .mk n lv s f none
  | .mk _ _ _ _ (some p) => p.rootOf

/-- Call-site metadata carried by a log statement: `__FILE__`, `__LINE__`
and `__FUNCTION__` at the point of the `EASY_LOG` invocation. -/
structure CallSite where
  file : String
  line : Nat
  func : String
deriving DecidableEq, Repr

/-- Modelled from the spec: the format-template renderer (part of
`Logger::WriteLog` in `easylogger-impl.h`, which is not in the sources).
Spec sections 6 and 9: a single pass over the template recognising the
fixed token set `%F` (file), `%C` (line), `%P` (function), `%N`
(originating logger name), `%L` (level text), `%S` (message), passing all
other characters through literally, including unrecognised `%`-sequences. -/
def renderChars (file : String) (line : Nat) (func : String) (name : String)
    (level : LogLevel) (message : String) : List Char → String
  | [] => ""
  | '%' :: c :: rest =>
    (match c with
     | 'F' => file
     | 'C' => toString line
     | 'P' => func
     | 'N' => name
     | 'L' => levelText level
     | 'S' => message
     | other => String.mk ['%', other]) ++
      renderChars file line func name level message rest
  | ['%'] => "%"
  | c :: rest => String.mk [c] ++ renderChars file line func name level message rest

/-- Render a format template against the call-site fields, the originating
logger's name, the level and the composed message. -/
def renderFormat (fmt : String) (cs : CallSite) (name : String)
    (level : LogLevel) (message : String) : String :=
  renderChars cs.file cs.line cs.func name level message fmt.data

/-- Sink for log message streaming, from src/easylogger.h lines 40-79: the
target logger, the level, the call-site fields, and the internal
`std::ostringstream` accumulator `_os`, modelled by the text accumulated so
far. -/
structure LogSink where
  logger : Logger
  level : LogLevel
  cs : CallSite
  buffer : String

/-- The templated stream operator from src/easylogger.h lines 229-233:
`sink.Stream() << val` appends the value's text rendering to the sink's
internal `ostringstream`.  The rendering of a C++ value to text is done by
the standard library, outside this repository, so a fragment arrives here
already rendered. -/
def LogSink.streamIn (sink : LogSink) (rendered : String) : LogSink :=
  { sink with buffer := sink.buffer ++ rendered }

/-- Stream a sequence of already-rendered fragments into a sink, in call
order. -/
def LogSink.streamAll (sink : LogSink) (frags : List String) : LogSink :=
  frags.foldl LogSink.streamIn sink

/-- Modelled from the spec: the body of `Logger::Log` is in
`easylogger-impl.h`, which is not in the sources.  Spec section 4.2:
"Constructs and returns a Sink bound to `this`.  No I/O occurs here."  The
sink starts with an empty accumulator. -/
def Logger.Log (l : Logger) (level : LogLevel) (cs : CallSite) : LogSink :=
  ⟨l, level, cs, ""⟩

/-- Modelled from the spec: the body of `Logger::WriteLog` is in
`easylogger-impl.h`, which is not in the sources.  Spec section 4.2: "if
`this.parent` exists, delegate the call unchanged to
`this.parent.WriteLog(...)` ... until a logger with no parent is reached.
At that root, render `this.format` (the root's own template) against the
supplied fields and write the resulting line, newline-terminated, to
`this.destination`."  Writing through a null stream pointer is a
null-pointer dereference. -/
def Logger.WriteLog (self : Logger) (level : LogLevel) (orig : Logger)
    (cs : CallSite) (message : String) (st : Streams) : Streams × List Event :=
  match self with
  | .mk _ _ _ _ (some p) => p.WriteLog level orig cs message st
  | .mk _ _ stream fmt none =>
    match stream with
    | none => (st, [.nullDeref])
    | some sid =>
      let line := renderFormat fmt cs orig.name level message ++ "\n"
      (writeLine st sid line, [.wroteLine sid line])

/-- Flush, from src/easylogger.h line 197: `_stream->flush()`.  When the
stream pointer is null (a child logger never given a stream) this is a
null-pointer dereference. -/
def Logger.Flush (l : Logger) (st : Streams) : Streams × List Event :=
  match l.stream with
  | none => (st, [.nullDeref])
  | some sid => (flushStream st sid, [.flushed sid])

/-- Whether an event trace records a null-pointer dereference (used to
model the crash cutting execution short). -/
def hasNullDeref : List Event → Bool
  | [] => false
  | .nullDeref :: _ => true
  | _ :: t => hasNullDeref t

/-- The `EASY_LOG(logger, level, message)` macro, from src/easylogger.h
lines 241-252: if `logger.IsLevel(level)` holds, construct a `LogSink` via
`logger.Log(...)`, stream the message fragments into it, let its destructor
run (spec section 4.3: the destructor calls
`logger.WriteLog(level, logger, file, line, func, text)`, the destructor
body being in the missing `easylogger-impl.h`), and then, if the level is
`LEVEL_FATAL`, call `logger.Flush()` followed by `std::abort()`.  A
null-pointer dereference stops execution at the point it occurs. -/
def easyLog (logger : Logger) (level : LogLevel) (cs : CallSite)
    (frags : List String) (st : Streams) : Streams × List Event :=
  if logger.IsLevel level then
    let sink := (logger.Log level cs).streamAll frags
    let write := logger.WriteLog level logger cs sink.buffer st
    if hasNullDeref write.2 then
      (write.1, .sinkConstructed :: write.2)
    else if level = .LEVEL_FATAL then
      let flush := logger.Flush write.1
      if hasNullDeref flush.2 then
        (flush.1, .sinkConstructed :: write.2 ++ flush.2)
      else
        (flush.1, .sinkConstructed :: write.2 ++ flush.2 ++ [.aborted])
    else
      (write.1, .sinkConstructed :: write.2)
  else
    (st, [])

/-- The `EASY_ASSERT(logger, expr, msg)` macro in its `!defined(NDEBUG)`
form, from src/easylogger.h lines 263-267: if the condition is false, log
at `LEVEL_FATAL` the single string literal
`"ASSERTION FAILED: " #expr ": " msg`, where `#expr` is the preprocessor
stringisation of the condition text. -/
def EASY_ASSERT (logger : Logger) (expr : Bool) (exprText msg : String)
    (cs : CallSite) (st : Streams) : Streams × List Event :=
  if !expr then
    easyLog logger .LEVEL_FATAL cs ["ASSERTION FAILED: " ++ exprText ++ ": " ++ msg] st
  else
    (st, [])

/-- The `ASSERT_NOTNULL(logger, expr, msg)` macro, src/easylogger.h line
272: `EASY_ASSERT` on the condition `(expr) != NULL`; the pointer argument
is modelled as an `Option`. -/
def ASSERT_NOTNULL {α : Type} (logger : Logger) (expr : Option α)
    (exprText msg : String) (cs : CallSite) (st : Streams) : Streams × List Event :=
  EASY_ASSERT logger expr.isSome exprText msg cs st

/-- The `ASSERT_EQ(logger, lhs, rhs, msg)` macro, src/easylogger.h line
273: `EASY_ASSERT` on the condition `(lhs) == (rhs)`. -/
def ASSERT_EQ {α : Type} [DecidableEq α] (logger : Logger) (lhs rhs : α)
    (exprText msg : String) (cs : CallSite) (st : Streams) : Streams × List Event :=
  EASY_ASSERT logger (lhs = rhs) exprText msg cs st

/-- The `ASSERT_NE(logger, lhs, rhs, msg)` macro, src/easylogger.h line
274: `EASY_ASSERT` on the condition `(lhs) != (rhs)`. -/
def ASSERT_NE {α : Type} [DecidableEq α] (logger : Logger) (lhs rhs : α)
    (exprText msg : String) (cs : CallSite) (st : Streams) : Streams × List Event :=
  EASY_ASSERT logger (lhs ≠ rhs) exprText msg cs st

/-- Preprocessor expansion text of `ASSERT_TRUE(logger, expr)`,
transcribed from src/easylogger.h line 275.  The macro's parameters are
`logger` and `expr`, but its body is `EASY_ASSERT((logger), (lhs) == true,
msg)`: the substituted output mentions the names `lhs` and `msg`, which are
not parameters, and never mentions `expr`. -/
def ASSERT_TRUE_expansionText (logger expr : String) : String :=
  "EASY_ASSERT((" ++ logger ++ "), (lhs) == true, msg)"

/-- Preprocessor expansion text of `ASSERT_FALSE(logger, expr, msg)`,
transcribed from src/easylogger.h line 276.  The macro's parameters are
`logger`, `expr` and `msg`, but the condition in its body is
`(lhs) != false`: the substituted output mentions the name `lhs`, which is
not a parameter, and never mentions `expr`. -/
def ASSERT_FALSE_expansionText (logger expr msg : String) : String :=
  "EASY_ASSERT((" ++ logger ++ "), (lhs) != false, " ++ msg ++ ")"

/-- Whether the character list starts with the given pattern. -/
def beginsWith : List Char → List Char → Bool
  | _, [] => true
  | [], _ :: _ => false
  | a :: as, b :: bs => a == b && beginsWith as bs

/-- Whether the pattern occurs as a contiguous run anywhere in the
character list. -/
def containsSub : List Char → List Char → Bool
  | [], pat => beginsWith [] pat
  | h :: t, pat => beginsWith (h :: t) pat || containsSub t pat

/-- Whether the second string occurs as a substring of the first. -/
def strHasSub (hay pat : String) : Bool :=
  containsSub hay.data pat.data

/-- The destination invariant stated in the spec (section 3): a Logger with
a parent never holds a destination; a Logger without a parent always holds
a destination. -/
@[reducible] def destInvariant (l : Logger) : Prop :=
  (l.parent.isSome → l.stream = none) ∧ (l.parent = none → l.stream.isSome)

/-- Spec-words predicate for the chain-filtering reading (spec section 3,
invariants): "every node from the originating logger up to and including
the root that owns the destination accepts the level (each node's own
threshold)".  Written from the spec sentence, to be compared with the
behaviour of `easyLog`. -/
def chainAccepts : Logger → LogLevel → Bool
  | .mk _ lv _ _ none, level => lv.toNat ≤ level.toNat
  | .mk _ lv _ _ (some p), level => (lv.toNat ≤ level.toNat) && chainAccepts p level

/-- The three-level hierarchy of spec section 8: a root logger with
threshold Error. -/
def root3 : Logger := (Logger.mkRoot "root").SetLevel .LEVEL_ERROR

/-- Middle logger of the three-level hierarchy, child of `root3`, threshold
Info. -/
def mid3 : Logger := (Logger.mkChild "mid" root3).SetLevel .LEVEL_INFO

/-- Leaf logger of the three-level hierarchy, child of `mid3`, threshold
Trace. -/
def leaf3 : Logger := (Logger.mkChild "leaf" mid3).SetLevel .LEVEL_TRACE

/-- A sample call site used by concrete scenarios. -/
def cs0 : CallSite := ⟨"main.cpp", 42, "main"⟩

/-- An initial stream table holding only the untouched console stream. -/
def st0 : Streams := [(coutId, ⟨[], 0⟩)]

/-- Concatenation of a list of strings, in order, with no separators. -/
def concatStrs : List String → String
  | [] => ""
  | s :: t => s ++ concatStrs t

/-- A concrete root logger used by concrete scenarios. -/
def appRoot : Logger := Logger.mkRoot "app"

/-- A concrete child of `appRoot`, never given a stream of its own. -/
def appChild : Logger := Logger.mkChild "child" appRoot

/-- Streaming fragments into a sink appends their separator-free
concatenation to the accumulator. -/
lemma streamAll_buffer (frags : List String) (sink : LogSink) :
    (sink.streamAll frags).buffer = sink.buffer ++ concatStrs frags := by
  induction frags generalizing sink with
  | nil => simp [LogSink.streamAll, concatStrs, String.append_empty]
  | cons a t ih =>
    show ((sink.streamIn a).streamAll t).buffer = _
    rw [ih, LogSink.streamIn, concatStrs, String.append_assoc]

/-- A fresh sink filled from a sequence of fragments holds exactly their
concatenation. -/
lemma log_streamAll_buffer (l : Logger) (level : LogLevel) (cs : CallSite)
    (frags : List String) :
    ((l.Log level cs).streamAll frags).buffer = concatStrs frags := by
  rw [streamAll_buffer]
  exact String.empty_append _

/-- Every logger accepts the Fatal level: `LEVEL_FATAL` is the maximum
enum value, so no threshold rejects it. -/
lemma isLevel_fatal (l : Logger) : l.IsLevel .LEVEL_FATAL = true := by
  cases l with
  | mk n lv s f p => cases lv <;> rfl

/-- The root ancestor has a null parent pointer. -/
lemma rootOf_parent (l : Logger) : (Logger.rootOf l).parent = none := by
  match l with
  | .mk n lv s f none => rfl
  | .mk n lv s f (some p) =>
    show (Logger.rootOf p).parent = none
    exact rootOf_parent p

/-- WriteLog delegates every call, with all arguments unchanged, to the
root ancestor. -/
lemma writeLog_eq_root (self : Logger) (level : LogLevel) (orig : Logger)
    (cs : CallSite) (message : String) (st : Streams) :
    self.WriteLog level orig cs message st =
      (Logger.rootOf self).WriteLog level orig cs message st := by
  match self with
  | .mk n lv s f none => rfl
  | .mk n lv s f (some p) =>
    show p.WriteLog level orig cs message st = _
    exact writeLog_eq_root p level orig cs message st

/-- When the root ancestor's stream pointer is null, WriteLog is a
null-pointer dereference. -/
lemma writeLog_root_none (self : Logger) (level : LogLevel) (orig : Logger)
    (cs : CallSite) (message : String) (st : Streams)
    (h : (Logger.rootOf self).stream = none) :
    self.WriteLog level orig cs message st = (st, [.nullDeref]) := by
  match self with
  | .mk n lv s f none =>
    have hs : s = none := h
    subst hs
    rfl
  | .mk n lv s f (some p) =>
    show p.WriteLog level orig cs message st = _
    exact writeLog_root_none p level orig cs message st h

/-- When the root ancestor's stream pointer is non-null, WriteLog writes
exactly one newline-terminated line, rendered with the root's own format
template, to the root's stream. -/
lemma writeLog_root_some (self : Logger) (level : LogLevel) (orig : Logger)
    (cs : CallSite) (message : String) (st : Streams) (sid : Nat)
    (h : (Logger.rootOf self).stream = some sid) :
    self.WriteLog level orig cs message st =
      (writeLine st sid
         (renderFormat (Logger.rootOf self).format cs orig.name level message ++ "\n"),
       [.wroteLine sid
         (renderFormat (Logger.rootOf self).format cs orig.name level message ++ "\n")]) := by
  match self with
  | .mk n lv s f none =>
    have hs : s = some sid := h
    subst hs
    rfl
  | .mk n lv s f (some p) =>
    show p.WriteLog level orig cs message st = _
    exact writeLog_root_some p level orig cs message st sid h

/-- Full characterisation of one `EASY_LOG` statement: nothing happens on
a rejected level; on an accepted level exactly one line, rendered with the
root ancestor's format template and the originating logger's name, is
written to the root's stream (a null root stream pointer crashes instead),
and the Fatal level additionally flushes the originating logger's own
stream (crashing when that pointer is null, as on a child) and then
aborts. -/
lemma easyLog_spec (logger : Logger) (level : LogLevel) (cs : CallSite)
    (frags : List String) (st : Streams) :
    easyLog logger level cs frags st =
      if logger.IsLevel level then
        match (Logger.rootOf logger).stream with
        | none => (st, [.sinkConstructed, .nullDeref])
        | some sid =>
          let line := renderFormat (Logger.rootOf logger).format cs logger.name
              level (concatStrs frags) ++ "\n"
          let st1 := writeLine st sid line
          if level = .LEVEL_FATAL then
            match logger.stream with
            | none => (st1, [.sinkConstructed, .wroteLine sid line, .nullDeref])
            | some fsid =>
              (flushStream st1 fsid,
               [.sinkConstructed, .wroteLine sid line, .flushed fsid, .aborted])
          else
            (st1, [.sinkConstructed, .wroteLine sid line])
      else
        (st, []) := by
  by_cases hlv : logger.IsLevel level
  · rw [if_pos hlv]
    simp only [easyLog, hlv, if_true]
    rw [log_streamAll_buffer]
    cases hst : (Logger.rootOf logger).stream with
    | none =>
      rw [writeLog_root_none logger level logger cs _ st hst]
      rfl
    | some sid =>
      rw [writeLog_root_some logger level logger cs _ st sid hst]
      by_cases hf : level = LogLevel.LEVEL_FATAL
      · cases hls : logger.stream with
        | none => simp [hasNullDeref, hf, Logger.Flush, hls]
        | some fsid => simp [hasNullDeref, hf, Logger.Flush, hls]
      · simp [hasNullDeref, hf]
  · rw [if_neg hlv]
    unfold easyLog
    rw [if_neg hlv]

/-- A rejected level leaves the stream table untouched and produces no
event at all: in particular no sink is constructed and no I/O occurs. -/
lemma easyLog_reject (logger : Logger) (level : LogLevel) (cs : CallSite)
    (frags : List String) (st : Streams)
    (h : logger.IsLevel level = false) :
    easyLog logger level cs frags st = (st, []) := by
  unfold easyLog
  rw [if_neg (by simp [h])]

/-- An accepted level at a logger whose root ancestor holds a stream always
records a written line carrying the root's rendering of the message. -/
lemma easyLog_accept_wrote (logger : Logger) (level : LogLevel)
    (cs : CallSite) (frags : List String) (st : Streams) (sid : Nat)
    (hlv : logger.IsLevel level = true)
    (hsid : (Logger.rootOf logger).stream = some sid) :
    Event.wroteLine sid
        (renderFormat (Logger.rootOf logger).format cs logger.name level
          (concatStrs frags) ++ "\n") ∈
      (easyLog logger level cs frags st).2 := by
  rw [easyLog_spec, if_pos hlv, hsid]
  by_cases hf : level = LogLevel.LEVEL_FATAL
  · cases hls : logger.stream <;> simp [hf, hls]
  · simp [hf]

/-- An accepted level always produces at least the sink-construction
event. -/
lemma easyLog_accept_ne_nil (logger : Logger) (level : LogLevel)
    (cs : CallSite) (frags : List String) (st : Streams)
    (hlv : logger.IsLevel level = true) :
    (easyLog logger level cs frags st).2 ≠ [] := by
  rw [easyLog_spec, if_pos hlv]
  cases hst : (Logger.rootOf logger).stream with
  | none => simp
  | some sid =>
    by_cases hf : level = LogLevel.LEVEL_FATAL
    · cases hls : logger.stream <;> simp [hf, hls]
    · simp [hf]

/-- Claim C1: for every logger and every severity level L, a log statement
issued at that logger is written if and only if L is greater than or equal
to that logger's own threshold, independently of the thresholds of any of
its ancestors (the statement quantifies over every hierarchy shape and
every ancestor configuration); the level gate is checked only at the
call-site logger and never re-checked while forwarding. -/
theorem write_iff_origin_threshold (logger : Logger) (level : LogLevel)
    (cs : CallSite) (frags : List String) (st : Streams)
    (hroot : (Logger.rootOf logger).stream.isSome = true) :
    (∃ sid line, Event.wroteLine sid line ∈ (easyLog logger level cs frags st).2) ↔
      logger.level.toNat ≤ level.toNat := by
  constructor
  · rintro ⟨sid, line, hmem⟩
    by_contra hnot
    rw [easyLog_reject logger level cs frags st (decide_eq_false hnot)] at hmem
    simp at hmem
  · intro hle
    obtain ⟨sid, hsid⟩ := Option.isSome_iff_exists.mp hroot
    exact ⟨sid, _, easyLog_accept_wrote logger level cs frags st sid
      (decide_eq_true hle) hsid⟩

/-- Witness for claim C1 at a concrete input: the default root logger has
threshold Info and an Info statement is written. -/
theorem write_iff_origin_threshold_witness :
    (Logger.rootOf appRoot).stream.isSome = true ∧
      ((∃ sid line, Event.wroteLine sid line ∈
          (easyLog appRoot .LEVEL_INFO cs0 ["m"] st0).2) ↔
        appRoot.level.toNat ≤ LogLevel.LEVEL_INFO.toNat) :=
  ⟨rfl, write_iff_origin_threshold appRoot .LEVEL_INFO cs0 ["m"] st0 rfl⟩

/-- Counterexample to claim C2 as stated: in the three-level hierarchy
root(Error) ← mid(Info) ← leaf(Trace), the chain predicate of the spec
rejects a Trace message at leaf (the root does not accept Trace), yet the
message is written. -/
theorem chain_filter_counterexample :
    chainAccepts leaf3 .LEVEL_TRACE = false ∧
      Event.wroteLine coutId "[main.cpp:42 main] leaf TRACE: hello\n" ∈
        (easyLog leaf3 .LEVEL_TRACE cs0 ["hello"] st0).2 := by
  constructor
  · rfl
  · have h := easyLog_accept_wrote leaf3 .LEVEL_TRACE cs0 ["hello"] st0 coutId rfl rfl
    simpa using h

/-- Claim C2 (amended): a message logged at a logger is emitted if and only
if the originating logger itself accepts the level under its own threshold;
the thresholds of the other nodes on the chain up to the destination-owning
root are not consulted. -/
theorem emitted_iff_origin_accepts (logger : Logger) (level : LogLevel)
    (cs : CallSite) (frags : List String) (st : Streams)
    (hroot : (Logger.rootOf logger).stream.isSome = true) :
    (∃ sid line, Event.wroteLine sid line ∈ (easyLog logger level cs frags st).2) ↔
      logger.IsLevel level = true := by
  constructor
  · rintro ⟨sid, line, hmem⟩
    by_contra hnot
    rw [easyLog_reject logger level cs frags st (Bool.not_eq_true _ ▸ hnot)] at hmem
    simp at hmem
  · intro hlv
    obtain ⟨sid, hsid⟩ := Option.isSome_iff_exists.mp hroot
    exact ⟨sid, _, easyLog_accept_wrote logger level cs frags st sid hlv hsid⟩

/-- Witness for the amended claim C2 at a concrete input: the leaf of the
three-level hierarchy accepts Trace and a Trace statement there is
emitted. -/
theorem emitted_iff_origin_accepts_witness :
    (Logger.rootOf leaf3).stream.isSome = true ∧
      ((∃ sid line, Event.wroteLine sid line ∈
          (easyLog leaf3 .LEVEL_TRACE cs0 ["hello"] st0).2) ↔
        leaf3.IsLevel .LEVEL_TRACE = true) :=
  ⟨rfl, emitted_iff_origin_accepts leaf3 .LEVEL_TRACE cs0 ["hello"] st0 rfl⟩

/-- Claim C3, evaluated at its failing input: the default child logger
accepts Fatal (every logger does, Fatal being the maximum level), and
logging Fatal at it does write the line at the root, but the subsequent
`(logger).Flush()` of the fatal path dereferences the child's null stream
pointer, so the destination is never flushed and `std::abort` is never
reached — diverging from the claimed flush-then-abort contract. -/
theorem fatal_child_counterexample :
    appChild.IsLevel .LEVEL_FATAL = true ∧
      Event.nullDeref ∈ (easyLog appChild .LEVEL_FATAL cs0 ["boom"] st0).2 ∧
      Event.aborted ∉ (easyLog appChild .LEVEL_FATAL cs0 ["boom"] st0).2 ∧
      Event.flushed coutId ∉ (easyLog appChild .LEVEL_FATAL cs0 ["boom"] st0).2 := by
  decide

/-- Every logger accepts Fatal, since Fatal is the maximum level; and for
every logger whose own stream pointer is non-null, logging at Fatal writes
exactly one line — rendered by the destination-owning root — then flushes
the originating logger's own stream (the destination itself whenever the
originating logger is the root that owns it), then aborts the process.
This is the intended fatal contract, which the code meets only on such
loggers. -/
theorem fatal_flushes_and_aborts :
    (∀ l : Logger, l.IsLevel .LEVEL_FATAL = true) ∧
      (∀ (logger : Logger) (cs : CallSite) (frags : List String) (st : Streams)
          (fsid rsid : Nat), logger.stream = some fsid →
          (Logger.rootOf logger).stream = some rsid →
          easyLog logger .LEVEL_FATAL cs frags st =
            (flushStream
                (writeLine st rsid
                  (renderFormat (Logger.rootOf logger).format cs logger.name
                    .LEVEL_FATAL (concatStrs frags) ++ "\n")) fsid,
             [.sinkConstructed,
              .wroteLine rsid
                (renderFormat (Logger.rootOf logger).format cs logger.name
                  .LEVEL_FATAL (concatStrs frags) ++ "\n"),
              .flushed fsid, .aborted])) := by
  refine ⟨isLevel_fatal, ?_⟩
  intro logger cs frags st fsid rsid hfs hrs
  rw [easyLog_spec, if_pos (isLevel_fatal logger), hrs]
  simp [hfs]

/-- Concrete instance of the fatal contract: a Fatal statement at the
default root logger writes one line to the console stream, flushes it, and
aborts. -/
theorem fatal_root_concrete :
    easyLog appRoot .LEVEL_FATAL cs0 ["boom"] st0 =
      (flushStream
          (writeLine st0 coutId
            (renderFormat (Logger.rootOf appRoot).format cs0 appRoot.name
              .LEVEL_FATAL (concatStrs ["boom"]) ++ "\n")) coutId,
       [.sinkConstructed,
        .wroteLine coutId
          (renderFormat (Logger.rootOf appRoot).format cs0 appRoot.name
            .LEVEL_FATAL (concatStrs ["boom"]) ++ "\n"),
        .flushed coutId, .aborted]) :=
  fatal_flushes_and_aborts.2 appRoot cs0 ["boom"] st0 coutId coutId rfl rfl

/-- Claim C4: `WriteLog` delegates to the parent with every argument
unchanged until the parentless root is reached; the format template of any
logger that still has a parent is irrelevant to the written text; and the
root renders the line with its own template. -/
theorem writeLog_forwards_unchanged :
    (∀ (self : Logger) (level : LogLevel) (orig : Logger) (cs : CallSite)
        (message : String) (st : Streams),
        self.WriteLog level orig cs message st =
          (Logger.rootOf self).WriteLog level orig cs message st) ∧
      (∀ (self p : Logger) (fmt : String) (level : LogLevel) (orig : Logger)
          (cs : CallSite) (message : String) (st : Streams),
          self.parent = some p →
          (self.SetFormat fmt).WriteLog level orig cs message st =
            self.WriteLog level orig cs message st) ∧
      (∀ (self : Logger) (level : LogLevel) (orig : Logger) (cs : CallSite)
          (message : String) (st : Streams) (rsid : Nat),
          (Logger.rootOf self).stream = some rsid →
          self.WriteLog level orig cs message st =
            (writeLine st rsid
              (renderFormat (Logger.rootOf self).format cs orig.name level
                message ++ "\n"),
             [.wroteLine rsid
               (renderFormat (Logger.rootOf self).format cs orig.name level
                 message ++ "\n")])) := by
  refine ⟨writeLog_eq_root, ?_, ?_⟩
  · intro self p fmt level orig cs message st hp
    match self with
    | .mk n lv s f pp =>
      have hpp : pp = some p := hp
      subst hpp
      rfl
  · intro self level orig cs message st rsid h
    exact writeLog_root_some self level orig cs message st rsid h

/-- Witness for claim C4 at a concrete input: changing the format of a
child logger does not change the result of a write forwarded through it. -/
theorem writeLog_forwards_unchanged_witness :
    (appChild.SetFormat "%S").WriteLog .LEVEL_INFO appChild cs0 "hello" st0 =
      appChild.WriteLog .LEVEL_INFO appChild cs0 "hello" st0 :=
  writeLog_forwards_unchanged.2.1 appChild appRoot "%S" .LEVEL_INFO appChild
    cs0 "hello" st0 rfl

/-- Counterexample to claim C5 as stated: the destination invariant holds
for a freshly constructed child, but applying the `Stream` setter to that
child installs a destination stream on a logger that has a parent,
violating it. -/
theorem stream_setter_breaks_invariant :
    destInvariant appChild ∧ ¬ destInvariant (appChild.SetStream 5) := by
  constructor
  · exact ⟨fun _ => rfl, fun h => nomatch h⟩
  · intro h
    exact Option.noConfusion (h.1 rfl)

/-- Claim C5 (amended): a Logger constructed with a parent holds no
destination stream; a Logger constructed without a parent always holds one,
defaulting to the process-standard console stream; the invariant is
preserved by the Level and Format setters and by the Stream setter on a
parentless logger, but the Stream setter applied to a logger with a parent
installs a destination and breaks it. -/
theorem destination_invariant :
    (∀ n : String, (Logger.mkRoot n).stream = some coutId) ∧
      (∀ n : String, destInvariant (Logger.mkRoot n)) ∧
      (∀ (n : String) (p : Logger), destInvariant (Logger.mkChild n p)) ∧
      (∀ (l : Logger) (lv : LogLevel),
        destInvariant l → destInvariant (l.SetLevel lv)) ∧
      (∀ (l : Logger) (f : String),
        destInvariant l → destInvariant (l.SetFormat f)) ∧
      (∀ (l : Logger) (sid : Nat),
        l.parent = none → destInvariant (l.SetStream sid)) := by
  refine ⟨fun n => rfl, fun n => ⟨fun h => (nomatch h), fun _ => rfl⟩,
    fun n p => ⟨fun _ => rfl, fun h => nomatch h⟩, ?_, ?_, ?_⟩
  · intro l lv h
    match l with
    | .mk n lv0 s f p => exact h
  · intro l f h
    match l with
    | .mk n lv0 s f0 p => exact h
  · intro l sid hp
    match l with
    | .mk n lv0 s f p =>
      have hpp : p = none := hp
      subst hpp
      exact ⟨fun h => (nomatch h), fun _ => rfl⟩

/-- Witness for the amended claim C5 at a concrete input: the Level setter
preserves the destination invariant on a concrete child. -/
theorem destination_invariant_witness :
    destInvariant (appChild.SetLevel .LEVEL_TRACE) :=
  destination_invariant.2.2.2.1 appChild .LEVEL_TRACE
    ⟨fun _ => rfl, fun h => nomatch h⟩

/-- Claim C6: in the three-level hierarchy root(Error) ← mid(Info) ←
leaf(Trace), a Trace statement at leaf produces exactly one output line on
the root's destination (the console stream), and a Trace statement directly
at mid produces no output at all. -/
theorem three_level_scenario :
    easyLog leaf3 .LEVEL_TRACE cs0 ["hello"] st0 =
      ([(coutId, ⟨["[main.cpp:42 main] leaf TRACE: hello\n"], 0⟩)],
       [.sinkConstructed,
        .wroteLine coutId "[main.cpp:42 main] leaf TRACE: hello\n"]) ∧
      easyLog mid3 .LEVEL_TRACE cs0 ["hello"] st0 = (st0, []) := by
  constructor
  · rfl
  · rfl

/-- Claim C7: streaming a sequence of values into one sink concatenates
their text renderings in call order with no separators inserted (rendering
a C++ value to text is done by the standard library, outside this
repository, so fragments arrive already rendered); in particular the
sequence rendered as "x=", "5", " y=", "3.14" yields exactly the payload
"x=5 y=3.14". -/
theorem sink_concatenates_in_order :
    (∀ (l : Logger) (level : LogLevel) (cs : CallSite) (frags : List String),
        ((l.Log level cs).streamAll frags).buffer = concatStrs frags) ∧
      (((appRoot.Log .LEVEL_INFO cs0).streamAll
          ["x=", "5", " y=", "3.14"]).buffer = "x=5 y=3.14") := by
  refine ⟨log_streamAll_buffer, ?_⟩
  rfl

/-- Claim C8: a log statement whose level is rejected by the originating
logger's threshold constructs no sink, formats nothing and leaves every
destination stream completely untouched — the result is the unchanged
stream table with an empty event trace, because the filter runs before the
sink is created. -/
theorem rejected_level_no_effect (logger : Logger) (level : LogLevel)
    (cs : CallSite) (frags : List String) (st : Streams)
    (h : logger.IsLevel level = false) :
    easyLog logger level cs frags st = (st, []) :=
  easyLog_reject logger level cs frags st h

/-- Witness for claim C8 at a concrete input: a Debug statement at the
default root logger (threshold Info) leaves the stream table untouched and
produces no event. -/
theorem rejected_level_no_effect_witness :
    easyLog appRoot .LEVEL_DEBUG cs0 ["m"] st0 = (st0, []) :=
  rejected_level_no_effect appRoot .LEVEL_DEBUG cs0 ["m"] st0 rfl

/-- Claim C9, evaluated at the failing input: `EASY_ASSERT` itself logs a
Fatal "ASSERTION FAILED" message exactly when its condition is false, but
the `ASSERT_TRUE` and `ASSERT_FALSE` macros do not build their condition
from their supplied arguments — their preprocessor expansions never contain
the supplied expression text (here `my_cond`) and instead reference the
name `lhs` (and, for `ASSERT_TRUE`, `msg`), which is not among their
parameters. -/
theorem assert_true_false_wrong_condition :
    (∀ (logger : Logger) (cond : Bool) (t m : String) (cs : CallSite)
        (st : Streams),
        ((EASY_ASSERT logger cond t m cs st).2 = [] ↔ cond = true)) ∧
      ASSERT_TRUE_expansionText "g_log" "my_cond" =
        "EASY_ASSERT((g_log), (lhs) == true, msg)" ∧
      strHasSub (ASSERT_TRUE_expansionText "g_log" "my_cond") "my_cond" = false ∧
      strHasSub (ASSERT_TRUE_expansionText "g_log" "my_cond") "lhs" = true ∧
      strHasSub (ASSERT_FALSE_expansionText "g_log" "my_cond" "m") "my_cond" = false ∧
      strHasSub (ASSERT_FALSE_expansionText "g_log" "my_cond" "m") "lhs" = true := by
  refine ⟨?_, rfl, by decide, by decide, by decide, by decide⟩
  intro logger cond t m cs st
  cases cond with
  | true => simp [EASY_ASSERT]
  | false =>
    simp only [EASY_ASSERT, Bool.not_false, if_true]
    constructor
    · intro h
      exact absurd h (easyLog_accept_ne_nil logger .LEVEL_FATAL cs _ st
        (isLevel_fatal logger))
    · intro h
      exact (nomatch h)

/-- Claim C10: `Flush` on a logger whose stream pointer is null (as on any
logger constructed with a parent and never given a stream) dereferences the
null pointer; flushing is only safe when the stream pointer is non-null;
and the Fatal path of `EASY_LOG` on such a child logger reaches this
dereference after the line is written, so the process is never cleanly
aborted. -/
theorem flush_null_stream_deref :
    (∀ (l : Logger) (st : Streams),
        l.stream = none → l.Flush st = (st, [.nullDeref])) ∧
      (∀ (l : Logger) (st : Streams) (sid : Nat),
        l.stream = some sid → (l.Flush st).2 = [.flushed sid]) ∧
      (∀ (l p : Logger) (rsid : Nat) (cs : CallSite) (frags : List String)
          (st : Streams),
          l.parent = some p → l.stream = none →
          (Logger.rootOf l).stream = some rsid →
          (easyLog l .LEVEL_FATAL cs frags st).2 =
            [.sinkConstructed,
             .wroteLine rsid
               (renderFormat (Logger.rootOf l).format cs l.name .LEVEL_FATAL
                 (concatStrs frags) ++ "\n"),
             .nullDeref]) := by
  refine ⟨?_, ?_, ?_⟩
  · intro l st h
    rw [Logger.Flush, h]
  · intro l st sid h
    rw [Logger.Flush, h]
  · intro l p rsid cs frags st hp hs hrs
    rw [easyLog_spec, if_pos (isLevel_fatal l), hrs]
    simp [hs]

/-- Witness for claim C10 at a concrete input: flushing the default child
logger dereferences the null stream pointer, and a Fatal statement at it
writes the line and then crashes instead of aborting. -/
theorem flush_null_stream_deref_witness :
    appChild.Flush st0 = (st0, [.nullDeref]) ∧
      (easyLog appChild .LEVEL_FATAL cs0 ["boom"] st0).2 =
        [.sinkConstructed,
         .wroteLine coutId
           (renderFormat (Logger.rootOf appChild).format cs0 appChild.name
             .LEVEL_FATAL (concatStrs ["boom"]) ++ "\n"),
         .nullDeref] :=
  ⟨flush_null_stream_deref.1 appChild st0 rfl,
   flush_null_stream_deref.2.2 appChild appRoot coutId cs0 ["boom"] st0
     rfl rfl rfl⟩

end Easylogger
